import Mathlib

/-!
Verification of `src/list_flows.py`, a one-shot CLI script that reads a
credential from the environment, performs a single JSON-RPC POST, double-decodes
the nested JSON payload, persists it to a fixed file path, and prints a summary.

The script is shallowly embedded: JSON values are an inductive type (numbers are
modelled as integers; no claim involves floating-point numbers), the effectful
run is a pure function from the environment token and the transport outcome to a
trace of observable events (network call, file write, console prints) plus a
termination result. `exit(n)` and falling off the end of the script are modelled
as `Exit.code n` / `Exit.code 0`; an unhandled Python exception is `Exit.crash`.
-/

set_option maxRecDepth 2000

namespace ListFlows

/-- JSON values as produced by Python's `json` module. Numbers are modelled as
integers: the program itself only ever constructs the integral number `1`, and
floating-point payload numbers are outside the scope of this embedding (inputs
containing them are mapped to a parse failure). -/
inductive Json where
  | null : Json
  | bool : Bool → Json
  | num : Int → Json
  | str : String → Json
  | arr : List Json → Json
  | obj : List (String × Json) → Json
deriving Repr, BEq

/-- `n` spaces. -/
def spaces (n : Nat) : String := String.mk (List.replicate n ' ')

/-- Python `s[:n]`: the first `n` characters of `s` (all of `s` when it is
shorter). -/
def pyTake (s : String) (n : Nat) : String := String.mk (s.data.take n)

/-- Python `format(s, "<w")`: left-justify, padding with spaces on the right up
to width `w`; strings longer than `w` are left unchanged. -/
def ljust (s : String) (w : Nat) : String := s ++ spaces (w - s.length)

/-- Padding with spaces on the left up to width `w` — the "left-padded" format
claim C2 describes; defined only to be compared against what the script
actually prints. -/
def lpadSpec (s : String) (w : Nat) : String := spaces (w - s.length) ++ s

/-- Lowercase hexadecimal digit, as used by Python's `\uXXXX` escapes. -/
def hexDigitChar (n : Nat) : Char :=
  if n < 10 then Char.ofNat (48 + n) else Char.ofNat (87 + n)

/-- Four lowercase hex digits. -/
def hex4 (n : Nat) : String :=
  String.mk [hexDigitChar (n / 4096 % 16), hexDigitChar (n / 256 % 16),
             hexDigitChar (n / 16 % 16), hexDigitChar (n % 16)]

/-- Escape one character the way `json.dumps` (with its default
`ensure_ascii=True`) does: short escapes for the common control characters,
`\uXXXX` for other control and all non-ASCII characters (surrogate pairs above
U+FFFF), everything else verbatim. -/
def escChar (c : Char) : String :=
  if c = '"' then "\\\""
  else if c = '\\' then "\\\\"
  else if c = Char.ofNat 8 then "\\b"
  else if c = Char.ofNat 9 then "\\t"
  else if c = Char.ofNat 10 then "\\n"
  else if c = Char.ofNat 12 then "\\f"
  else if c = Char.ofNat 13 then "\\r"
  else if c.toNat < 32 ∨ c.toNat > 126 then
    if c.toNat ≤ 65535 then "\\u" ++ hex4 c.toNat
    else
      let n := c.toNat - 65536
      "\\u" ++ hex4 (55296 + n / 1024) ++ "\\u" ++ hex4 (56320 + n % 1024)
  else String.mk [c]

/-- A JSON string literal, `json.dumps`-style. -/
def encStr (s : String) : String :=
  "\"" ++ String.join (s.data.map escChar) ++ "\""

mutual

/-- `json.dumps(v)` with the default separators `", "` and `": "`. -/
def pyDumps : Json → String
  | .null => "null"
  | .bool true => "true"
  | .bool false => "false"
  | .num n => toString n
  | .str s => encStr s
  | .arr xs => "[" ++ pyDumpsItems xs ++ "]"
  | .obj kvs => "\x7b" ++ pyDumpsMembers kvs ++ "\x7d"

def pyDumpsItems : List Json → String
  | [] => ""
  | [x] => pyDumps x
  | x :: y :: rest => pyDumps x ++ ", " ++ pyDumpsItems (y :: rest)

def pyDumpsMembers : List (String × Json) → String
  | [] => ""
  | [kv] => encStr kv.1 ++ ": " ++ pyDumps kv.2
  | kv :: kv2 :: rest =>
      encStr kv.1 ++ ": " ++ pyDumps kv.2 ++ ", " ++ pyDumpsMembers (kv2 :: rest)

end

/-- Insert `k` spaces after every newline of `s`. Rendering a JSON value at
nesting depth `k` (in spaces) equals its depth-0 rendering passed through
`indentBy k`: Python's `indent=2` encoder writes its indentation exactly after
each newline it emits, and escaped string literals never contain a raw newline. -/
def indentBy (k : Nat) (s : String) : String :=
  String.mk (s.data.map (fun c =>
    if c = '\n' then '\n' :: List.replicate k ' ' else [c])).flatten

mutual

/-- `json.dumps(v, indent=2)`, rendered at nesting level 0. With `indent` set,
Python's item separator is `","` + newline and the key separator is `": "`;
empty containers print without newlines; children are indented two spaces
further (via `indentBy`, see there). -/
def pyDumps2 : Json → String
  | .null => "null"
  | .bool true => "true"
  | .bool false => "false"
  | .num n => toString n
  | .str s => encStr s
  | .arr [] => "[]"
  | .arr (x :: xs) => "[\n" ++ pyDumps2Items (x :: xs) ++ "\n]"
  | .obj [] => "\x7b\x7d"
  | .obj (kv :: kvs) => "\x7b\n" ++ pyDumps2Members (kv :: kvs) ++ "\n\x7d"

def pyDumps2Items : List Json → String
  | [] => ""
  | [x] => "  " ++ indentBy 2 (pyDumps2 x)
  | x :: y :: rest => "  " ++ indentBy 2 (pyDumps2 x) ++ ",\n" ++ pyDumps2Items (y :: rest)

def pyDumps2Members : List (String × Json) → String
  | [] => ""
  | [kv] => "  " ++ encStr kv.1 ++ ": " ++ indentBy 2 (pyDumps2 kv.2)
  | kv :: kv2 :: rest =>
      "  " ++ encStr kv.1 ++ ": " ++ indentBy 2 (pyDumps2 kv.2) ++ ",\n" ++
        pyDumps2Members (kv2 :: rest)

end

/-! ## `json.loads`

A parser with Python's `json.loads` semantics (strict mode, the default):
whitespace is space/tab/newline/carriage-return, string literals accept the
eight short escapes and `\uXXXX` (with surrogate pairs) and reject raw control
characters, objects keep the first position and the last value for a duplicated
key. Numbers are modelled as integers (see `Json`): an input whose number has a
fraction or exponent, or uses the `NaN`/`Infinity` extensions, is mapped to a
parse failure, as is a `\uXXXX` escape denoting a lone surrogate (such a value
is not representable as Unicode text). Recursion is by fuel; the top-level
entry point supplies enough fuel for any input. -/

/-- JSON whitespace, as in Python's `json` module. -/
def isJsonWs (c : Char) : Bool :=
  c = ' ' ∨ c = Char.ofNat 9 ∨ c = '\n' ∨ c = Char.ofNat 13

/-- Skip leading JSON whitespace. -/
def skipWs (cs : List Char) : List Char := cs.dropWhile isJsonWs

/-- Value of one hexadecimal digit. -/
def hexVal (c : Char) : Option Nat :=
  if 48 ≤ c.toNat ∧ c.toNat ≤ 57 then some (c.toNat - 48)
  else if 97 ≤ c.toNat ∧ c.toNat ≤ 102 then some (c.toNat - 87)
  else if 65 ≤ c.toNat ∧ c.toNat ≤ 70 then some (c.toNat - 55)
  else none

/-- Four hexadecimal digits, as in a `\uXXXX` escape. -/
def parseHex4 : List Char → Option (Nat × List Char)
  | a :: b :: c :: d :: rest => do
      let va ← hexVal a
      let vb ← hexVal b
      let vc ← hexVal c
      let vd ← hexVal d
      some (va * 4096 + vb * 256 + vc * 16 + vd, rest)
  | _ => none

/-- The body of a JSON string literal, after the opening quote; returns the
string and the input after the closing quote. `acc` holds the characters read
so far, in reverse. -/
def parseStrBody (fuel : Nat) (cs : List Char) (acc : List Char) :
    Option (String × List Char) :=
  match fuel with
  | 0 => none
  | fuel + 1 =>
    match cs with
    | [] => none
    | '"' :: rest => some (String.mk acc.reverse, rest)
    | '\\' :: e :: rest =>
      match e with
      | '"' => parseStrBody fuel rest ('"' :: acc)
      | '\\' => parseStrBody fuel rest ('\\' :: acc)
      | '/' => parseStrBody fuel rest ('/' :: acc)
      | 'b' => parseStrBody fuel rest (Char.ofNat 8 :: acc)
      | 'f' => parseStrBody fuel rest (Char.ofNat 12 :: acc)
      | 'n' => parseStrBody fuel rest ('\n' :: acc)
      | 'r' => parseStrBody fuel rest (Char.ofNat 13 :: acc)
      | 't' => parseStrBody fuel rest (Char.ofNat 9 :: acc)
      | 'u' =>
        match parseHex4 rest with
        | none => none
        | some (n, rest2) =>
          if 55296 ≤ n ∧ n ≤ 56319 then
            match rest2 with
            | '\\' :: 'u' :: rest3 =>
              match parseHex4 rest3 with
              | some (m, rest4) =>
                if 56320 ≤ m ∧ m ≤ 57343 then
                  parseStrBody fuel rest4
                    (Char.ofNat (65536 + (n - 55296) * 1024 + (m - 56320)) :: acc)
                else none
              | none => none
            | _ => none
          else if 56320 ≤ n ∧ n ≤ 57343 then none
          else parseStrBody fuel rest2 (Char.ofNat n :: acc)
      | _ => none
    | c :: rest => if c.toNat < 32 then none else parseStrBody fuel rest (c :: acc)

/-- A JSON integer literal: optional minus sign, then `0` or a digit sequence
not starting with `0` (the grammar's `int` production). A following `.`, `e` or
`E` would start a float, which this embedding does not model: the whole parse
fails there. -/
def parseNum (cs : List Char) : Option (Int × List Char) :=
  let (neg, cs1) := match cs with
    | '-' :: rest => (true, rest)
    | _ => (false, cs)
  match cs1 with
  | [] => none
  | c :: _ =>
    if ¬ c.isDigit then none
    else
      let digits := if c = '0' then [c] else cs1.takeWhile Char.isDigit
      let rest := if c = '0' then cs1.tail else cs1.dropWhile Char.isDigit
      match rest with
      | '.' :: _ => none
      | 'e' :: _ => none
      | 'E' :: _ => none
      | _ =>
        let v : Nat := digits.foldl (fun a c => a * 10 + (c.toNat - 48)) 0
        some (if neg then -(v : Int) else (v : Int), rest)

/-- Insert `(k, v)` into an association list with Python `dict` update
semantics: an existing key keeps its position and takes the new value, a new
key is appended. -/
def dictInsert (kvs : List (String × Json)) (k : String) (v : Json) :
    List (String × Json) :=
  if kvs.any (fun kv => kv.1 = k) then
    kvs.map (fun kv => if kv.1 = k then (k, v) else kv)
  else kvs ++ [(k, v)]

mutual

/-- Scan one JSON value starting at the head of `cs` (no leading whitespace). -/
def parseVal (fuel : Nat) (cs : List Char) : Option (Json × List Char) :=
  match fuel with
  | 0 => none
  | fuel + 1 =>
    match cs with
    | '"' :: rest => do
        let (s, rest2) ← parseStrBody (rest.length + 1) rest []
        some (Json.str s, rest2)
    | '\x7b' :: rest =>
      match skipWs rest with
      | '\x7d' :: rest2 => some (Json.obj [], rest2)
      | cs2 => parseMembers fuel cs2 []
    | '[' :: rest =>
      match skipWs rest with
      | ']' :: rest2 => some (Json.arr [], rest2)
      | cs2 => parseItems fuel cs2 []
    | 't' :: 'r' :: 'u' :: 'e' :: rest => some (Json.bool true, rest)
    | 'f' :: 'a' :: 'l' :: 's' :: 'e' :: rest => some (Json.bool false, rest)
    | 'n' :: 'u' :: 'l' :: 'l' :: rest => some (Json.null, rest)
    | _ => do
        let (n, rest) ← parseNum cs
        some (Json.num n, rest)

/-- Members of a JSON object, positioned at a key; `acc` holds the members
read so far. -/
def parseMembers (fuel : Nat) (cs : List Char) (acc : List (String × Json)) :
    Option (Json × List Char) :=
  match fuel with
  | 0 => none
  | fuel + 1 =>
    match cs with
    | '"' :: rest => do
      let (k, rest2) ← parseStrBody (rest.length + 1) rest []
      match skipWs rest2 with
      | ':' :: rest3 => do
        let (v, rest4) ← parseVal fuel (skipWs rest3)
        let acc2 := dictInsert acc k v
        match skipWs rest4 with
        | ',' :: rest5 => parseMembers fuel (skipWs rest5) acc2
        | '\x7d' :: rest5 => some (Json.obj acc2, rest5)
        | _ => none
      | _ => none
    | _ => none

/-- Items of a JSON array, positioned at a value; `acc` holds the items read
so far, in reverse. -/
def parseItems (fuel : Nat) (cs : List Char) (acc : List Json) :
    Option (Json × List Char) :=
  match fuel with
  | 0 => none
  | fuel + 1 => do
    let (v, rest) ← parseVal fuel cs
    match skipWs rest with
    | ',' :: rest2 => parseItems fuel (skipWs rest2) (v :: acc)
    | ']' :: rest2 => some (Json.arr (v :: acc).reverse, rest2)
    | _ => none

end

/-- `json.loads(s)`: parse one JSON document, allowing surrounding whitespace
and rejecting trailing data. -/
def parseJson (s : String) : Option Json :=
  let cs := skipWs s.data
  match parseVal (2 * cs.length + 2) cs with
  | some (v, rest) => if skipWs rest = [] then some v else none
  | none => none

/-! ## Python dynamic operations used by the script -/

/-- Key lookup in a decoded JSON object (`dict` lookup; keys are unique after
`dictInsert`). -/
def jsonLookup : List (String × Json) → String → Option Json
  | [], _ => none
  | kv :: rest, k => if kv.1 == k then some kv.2 else jsonLookup rest k

/-- Python `needle in hay` for strings: substring containment. -/
def strContains (hay needle : String) : Bool :=
  (List.range (hay.length + 1)).any (fun i => needle.data.isPrefixOf (hay.data.drop i))

/-- Python `"error" in v` for a decoded JSON value `v` (line 30): key
containment for a dict, element containment for a list, substring containment
for a string; `none` models the `TypeError` raised for the remaining decoded
types (numbers, booleans, `None`). -/
def hasErrorMember : Json → Option Bool
  | .obj kvs => some (kvs.any (fun kv => kv.1 == "error"))
  | .arr xs => some (xs.any (fun j => j == Json.str "error"))
  | .str s => some (strContains s "error")
  | _ => none

/-- Python `v[k]` for a string key `k` on a decoded JSON value: dict lookup
(`none` for a missing key is a `KeyError`); on every other decoded type a
string subscript raises `TypeError` (`none`). -/
def pySubscript : Json → String → Option Json
  | .obj kvs, k => jsonLookup kvs k
  | _, _ => none

/-- Python `v[0]` on a decoded JSON value: list head (`none` on an empty list
is an `IndexError`), first character of a string, `TypeError` otherwise. -/
def pyIndex0 : Json → Option Json
  | .arr (x :: _) => some x
  | .arr [] => none
  | .str s =>
    match s.data with
    | [] => none
    | c :: _ => some (.str (String.mk [c]))
  | _ => none

/-- `json.loads(resp["result"]["content"][0]["text"])` — the double decode at
line 34 of the script. `none` is any of the unhandled faults on the way:
missing key, wrong shape, a `text` value that is not a string (`json.loads`
only accepts strings and bytes), or a malformed embedded document. -/
def innerOf (resp : Json) : Option Json := do
  let r ← pySubscript resp "result"
  let c ← pySubscript r "content"
  let x ← pyIndex0 c
  let t ← pySubscript x "text"
  match t with
  | .str s => parseJson s
  | _ => none

/-! ## The script -/

/-- Observable events of one run, in program order. A `print` event carries the
exact text the call writes to stdout, including the newline `print` appends;
`fileWrite` is `open(path, "w")` followed by `json.dump`: the file is left
holding exactly `content`, any previous content discarded; `httpPost` is the
single `urlopen` call with the request body and the credential header. -/
inductive Event where
  | httpPost (url : String) (body : String) (token : String) : Event
  | fileWrite (path : String) (content : String) : Event
  | print (s : String) : Event
deriving Repr, DecidableEq

/-- How a run terminates: `exit(n)` and reaching the end of the script are
`code n` / `code 0`; an unhandled Python exception is `crash` (the interpreter
aborts with a traceback). -/
inductive Exit where
  | code (n : Nat) : Exit
  | crash : Exit
deriving Repr, DecidableEq

/-- The network exchange as the script can observe it: `urlopen` either raises
`HTTPError` — carrying the status code and the error body the handler reads —
or yields the response bytes (line 24). Transport faults the script does not
catch (timeout, DNS, connection reset) are outside this type: on them the
script crashes before any of the behaviour the claims describe. -/
inductive Transport where
  | httpError (status : Nat) (body : String) : Transport
  | ok (body : String) : Transport
deriving Repr, DecidableEq

/-- The fixed endpoint URL (line 14). -/
def endpointUrl : String := "https://mcp.flowstudio.app/mcp"

/-- The fixed snapshot file path (line 36; a Python raw string, so the
backslashes are literal). -/
def snapshotPath : String := "c:\\Users\\ninih\\GitHub\\FlowStudio MCP\\mcp_flows.json"

/-- The fixed JSON-RPC request body (lines 8-11). -/
def payload : Json :=
  .obj [("jsonrpc", .str "2.0"), ("id", .num 1), ("method", .str "tools/list"),
        ("params", .obj [])]

/-- `fl.get(k, "?")`, restricted to the Flow data model: `none` when `fl` is
not a dict (`.get` then raises `AttributeError`) or when the field is present
but not a string — the script would go on to slice or format such a value
dynamically, which is outside this embedding (most of those cases raise
`TypeError` in Python). -/
def flowField (fl : Json) (k : String) : Option String :=
  match fl with
  | .obj kvs =>
    match jsonLookup kvs k with
    | none => some "?"
    | some (.str s) => some s
    | some _ => none
  | _ => none

/-- One table row of the list branch (lines 42-46): the id truncated to its
first 12 characters with `..` appended unconditionally, the state and trigger
type left-justified (`:<10` / `:<15`, padding on the right), the display name
verbatim, all joined by the f-string of line 46, plus the newline `print`
appends. -/
def rowOf (fl : Json) : Option String := do
  let fid ← flowField fl "id"
  let name ← flowField fl "displayName"
  let state ← flowField fl "state"
  let trigger ← flowField fl "triggerType"
  some ("  " ++ pyTake fid 12 ++ "..  | " ++ ljust state 10 ++ " | " ++
        ljust trigger 15 ++ " | " ++ name ++ "\n")

/-- The row loop (lines 41-46). Rows printed before a faulting element stay
printed; the Bool is `false` when the loop raised. -/
def renderRows : List Json → List String × Bool
  | [] => ([], true)
  | fl :: rest =>
    match rowOf fl with
    | none => ([], false)
    | some r =>
      let (rs, ok) := renderRows rest
      (r :: rs, ok)

/-- The whole script as a function of the credential environment variable
(`os.environ.get("FLOWSTUDIO_MCP_TOKEN_FS", "")`, so `none` and `some ""` are
alike) and the transport outcome: the events in order, and the termination. -/
def run (token : Option String) (tr : Transport) : List Event × Exit :=
  let tok := token.getD ""
  if tok = "" then ([.print "NO TOKEN SET\n"], .code 1)
  else
    let post := Event.httpPost endpointUrl (pyDumps payload) tok
    match tr with
    | .httpError status body =>
        ([post, .print ("HTTP " ++ toString status ++ ": " ++ pyTake body 300 ++ "\n")],
         .code 1)
    | .ok raw =>
      match parseJson raw with
      | none => ([post], .crash)
      | some resp =>
        match hasErrorMember resp with
        | none => ([post], .crash)
        | some true =>
          match pySubscript resp "error" with
          | none => ([post], .crash)
          | some e =>
              ([post, .print ("JSON-RPC ERROR: " ++ pyDumps2 e ++ "\n")], .code 1)
        | some false =>
          match innerOf resp with
          | none => ([post], .crash)
          | some inner =>
            let wr := Event.fileWrite snapshotPath (pyDumps2 inner)
            match inner with
            | .arr xs =>
              let (rows, ok) := renderRows xs
              (post :: wr ::
                 .print ("Total flows: " ++ toString xs.length ++ "\n\n") ::
                 rows.map Event.print,
               if ok then .code 0 else .crash)
            | .obj kvs =>
              if kvs.any (fun kv => kv.1 == "error") then
                match jsonLookup kvs "error" with
                | some e =>
                    ([post, wr, .print ("ERROR: " ++ pyDumps2 e ++ "\n")], .code 0)
                | none => ([post, wr], .crash)
              else ([post, wr, .print (pyTake (pyDumps2 inner) 2000 ++ "\n")], .code 0)
            | _ => ([post, wr, .print (pyTake (pyDumps2 inner) 2000 ++ "\n")], .code 0)

/-- The console output of a run: the `print` events, concatenated in order. -/
def stdoutOf (evs : List Event) : String :=
  String.join (evs.filterMap (fun e => match e with | .print s => some s | _ => none))

/-- The file writes of a run, in order. -/
def fileWritesOf (evs : List Event) : List (String × String) :=
  evs.filterMap (fun e => match e with | .fileWrite p c => some (p, c) | _ => none)

/-- The number of network calls a run performs. -/
def httpPostCount (evs : List Event) : Nat :=
  (evs.filter (fun e => match e with | .httpPost _ _ _ => true | _ => false)).length

/-- The snapshot writes a run performs, as a function of the transport outcome
alone (specification side, for the determinism claim: the credential value
plays no part in what is persisted). -/
def snapshotWritesFor : Transport → List (String × String)
  | .httpError _ _ => []
  | .ok body =>
    match parseJson body with
    | none => []
    | some resp =>
      match hasErrorMember resp with
      | none => []
      | some true => []
      | some false =>
        match innerOf resp with
        | none => []
        | some inner => [(snapshotPath, pyDumps2 inner)]

/-! ## Concrete inputs

A well-formed outer envelope whose `text` field carries a given document, and
the concrete payloads the testable properties of the specification use. -/

/-- An outer envelope `result.content[0].text` carrying the document `t`,
serialized the way a JSON-RPC server would serialize it. -/
def envBody (t : String) : String :=
  pyDumps (.obj [("result", .obj [("content", .arr [.obj [("text", .str t)]])])])

/-- The flow record of testable property P4. -/
def flowP4 : Json :=
  .obj [("id", .str "abcdefghijklmnop"), ("displayName", .str "Daily Sync"),
        ("state", .str "active"), ("triggerType", .str "schedule")]

/-! ## Validation of the embedding on the concrete inputs of the testable properties -/

example : pyDumps (.obj [("a", .num 1), ("b", .arr [.num 1, .str "x"])]) =
    "\x7b\"a\": 1, \"b\": [1, \"x\"]\x7d" := by decide

example : pyDumps2 (.obj [("a", .arr [.num 1, .num 2]), ("b", .obj [])]) =
    "\x7b\n  \"a\": [\n    1,\n    2\n  ],\n  \"b\": \x7b\x7d\n\x7d" := by decide

example : pyDumps2 (.str "quota exceeded") = "\"quota exceeded\"" := rfl

example : parseJson "\x7b\"a\": [1, true, null], \"a\": \"x\"\x7d" =
    some (.obj [("a", .str "x")]) := rfl

example : parseJson " [\"a\\u0041\", -12, \x7b\x7d] " =
    some (.arr [.str "aA", .num (-12), .obj []]) := rfl

example : parseJson "\x7b\"text\": \"\x7b\\\"error\\\": 1\x7d\"\x7d" =
    some (.obj [("text", .str "\x7b\"error\": 1\x7d")]) := rfl

example : parseJson "[1,]" = none := rfl

example : parseJson "1.5" = none := rfl

example : innerOf (.obj [("result", .obj [("content",
    .arr [.obj [("text", .str "\x7b\"foo\": \"bar\"\x7d")]])])]) =
    some (.obj [("foo", .str "bar")]) := rfl

example : run (some "tok") (.ok (envBody (pyDumps (.obj [("error", .str "quota exceeded")])))) =
    ([.httpPost endpointUrl (pyDumps payload) "tok",
      .fileWrite snapshotPath "\x7b\n  \"error\": \"quota exceeded\"\n\x7d",
      .print "ERROR: \"quota exceeded\"\n"], .code 0) := rfl

example : run (some "tok") (.ok (envBody (pyDumps (.arr [flowP4])))) =
    ([.httpPost endpointUrl (pyDumps payload) "tok",
      .fileWrite snapshotPath (pyDumps2 (.arr [flowP4])),
      .print "Total flows: 1\n\n",
      .print "  abcdefghijkl..  | active     | schedule        | Daily Sync\n"],
     .code 0) := rfl

example : run (some "tok")
    (.ok (pyDumps (.obj [("error", .obj [("code", .num (-32601)),
                                         ("message", .str "no such method")])]))) =
    ([.httpPost endpointUrl (pyDumps payload) "tok",
      .print ("JSON-RPC ERROR: \x7b\n  \"code\": -32601,\n  \"message\": \"no such method\"\n\x7d\n")],
     .code 1) := rfl

example : run (some "tok") (.httpError 404 "not found") =
    ([.httpPost endpointUrl (pyDumps payload) "tok",
      .print "HTTP 404: not found\n"], .code 1) := rfl

example : run none (.ok "anything") = ([.print "NO TOKEN SET\n"], .code 1) := rfl

example : run (some "tok") (.ok (envBody (pyDumps (.obj [("foo", .str "bar")])))) =
    ([.httpPost endpointUrl (pyDumps payload) "tok",
      .fileWrite snapshotPath "\x7b\n  \"foo\": \"bar\"\n\x7d",
      .print "\x7b\n  \"foo\": \"bar\"\n\x7d\n"], .code 0) := rfl

/-! ## Helper lemmas -/

/-- A key found by `jsonLookup` makes the `"error" in inner` test succeed. -/
theorem any_key_of_lookup_some (kvs : List (String × Json)) (k : String) (v : Json)
    (h : jsonLookup kvs k = some v) : kvs.any (fun kv => kv.1 == k) = true := by
  induction kvs with
  | nil => simp [jsonLookup] at h
  | cons kv rest ih =>
      cases hk : (kv.1 == k) with
      | true => simp [List.any_cons, hk]
      | false =>
          simp only [jsonLookup, hk, if_neg] at h
          simp [List.any_cons, hk, ih h]

/-- A key absent per `jsonLookup` makes the `"error" in inner` test fail. -/
theorem any_key_of_lookup_none (kvs : List (String × Json)) (k : String)
    (h : jsonLookup kvs k = none) : kvs.any (fun kv => kv.1 == k) = false := by
  induction kvs with
  | nil => rfl
  | cons kv rest ih =>
      cases hk : (kv.1 == k) with
      | true => simp [jsonLookup, hk] at h
      | false =>
          simp only [jsonLookup, hk, if_neg] at h
          simp [List.any_cons, hk, ih h]

/-- A succeeding membership test yields a value for `jsonLookup`. -/
theorem lookup_some_of_any_key (kvs : List (String × Json)) (k : String)
    (h : kvs.any (fun kv => kv.1 == k) = true) : ∃ v, jsonLookup kvs k = some v := by
  induction kvs with
  | nil => simp [List.any_nil] at h
  | cons kv rest ih =>
      cases hk : (kv.1 == k) with
      | true => exact ⟨kv.2, by simp [jsonLookup, hk]⟩
      | false =>
          simp only [List.any_cons, hk, Bool.false_or] at h
          obtain ⟨v, hv⟩ := ih h
          exact ⟨v, by simp [jsonLookup, hk, hv]⟩

/-- When every element renders, the row loop renders them all, in order. -/
theorem renderRows_of_all_some (xs : List Json)
    (h : ∀ fl ∈ xs, (rowOf fl).isSome = true) :
    renderRows xs = (xs.map (fun fl => (rowOf fl).getD ""), true) := by
  induction xs with
  | nil => rfl
  | cons fl rest ih =>
      have hfl := h fl (List.mem_cons_self fl rest)
      cases hr : rowOf fl with
      | none => rw [hr] at hfl; simp at hfl
      | some r =>
          have := ih (fun g hg => h g (List.mem_cons_of_mem fl hg))
          simp [renderRows, hr, this]

/-- A block of print events contains no file write. -/
theorem fileWritesOf_map_print (l : List String) :
    fileWritesOf (l.map Event.print) = [] := by
  induction l with
  | nil => rfl
  | cons s rest ih => exact ih

/-! ## The claims -/

/-- C4: with the credential environment variable absent or set to the empty
string, the script prints the fixed diagnostic `NO TOKEN SET`, terminates with
exit code 1, performs no network call and does not touch the snapshot file. -/
theorem missing_token_diagnostic (token : Option String) (tr : Transport)
    (h : token = none ∨ token = some "") :
    run token tr = ([Event.print "NO TOKEN SET\n"], Exit.code 1) ∧
    httpPostCount (run token tr).1 = 0 ∧
    fileWritesOf (run token tr).1 = [] := by
  rcases h with h | h <;> subst h <;> exact ⟨rfl, rfl, rfl⟩

/-- Witness for C4: the missing-credential environment, with some transport. -/
theorem missing_token_diagnostic_wit :
    run none (Transport.ok "irrelevant") = ([Event.print "NO TOKEN SET\n"], Exit.code 1) ∧
    httpPostCount (run none (Transport.ok "irrelevant")).1 = 0 ∧
    fileWritesOf (run none (Transport.ok "irrelevant")).1 = [] :=
  missing_token_diagnostic none (Transport.ok "irrelevant") (Or.inl rfl)

/-- C6: an HTTP error status makes the script print `HTTP <status>: ` followed
by at most the first 300 characters of the error body, and exit with code 1. -/
theorem http_error_branch (tok : String) (status : Nat) (body : String)
    (htok : tok ≠ "") :
    run (some tok) (Transport.httpError status body) =
      ([Event.httpPost endpointUrl (pyDumps payload) tok,
        Event.print ("HTTP " ++ toString status ++ ": " ++ pyTake body 300 ++ "\n")],
       Exit.code 1) ∧
    (pyTake body 300).length ≤ 300 := by
  refine ⟨?_, ?_⟩
  · show (if tok = "" then ([Event.print "NO TOKEN SET\n"], Exit.code 1)
      else ([Event.httpPost endpointUrl (pyDumps payload) tok,
        Event.print ("HTTP " ++ toString status ++ ": " ++ pyTake body 300 ++ "\n")],
        Exit.code 1)) = _
    rw [if_neg htok]
  · show (body.data.take 300).length ≤ 300
    rw [List.length_take]
    exact min_le_left _ _

/-- Witness for C6: status 404 with body `not found` prints
`HTTP 404: not found` and exits 1. -/
theorem http_error_branch_wit :
    run (some "tok") (Transport.httpError 404 "not found") =
      ([Event.httpPost endpointUrl (pyDumps payload) "tok",
        Event.print "HTTP 404: not found\n"], Exit.code 1) ∧
    (pyTake "not found" 300).length ≤ 300 :=
  http_error_branch "tok" 404 "not found" (by decide)

/-- C5: a response whose parsed body is a mapping with an `error` key makes the
script print `JSON-RPC ERROR:` followed by the value pretty-printed with
2-space indent, and exit with code 1, leaving the snapshot file untouched. -/
theorem jsonrpc_error_branch (tok body : String) (kvs : List (String × Json)) (e : Json)
    (htok : tok ≠ "") (hresp : parseJson body = some (Json.obj kvs))
    (herr : jsonLookup kvs "error" = some e) :
    run (some tok) (Transport.ok body) =
      ([Event.httpPost endpointUrl (pyDumps payload) tok,
        Event.print ("JSON-RPC ERROR: " ++ pyDumps2 e ++ "\n")], Exit.code 1) ∧
    fileWritesOf (run (some tok) (Transport.ok body)).1 = [] := by
  have hany := any_key_of_lookup_some kvs "error" e herr
  have h1 : run (some tok) (Transport.ok body) =
      ([Event.httpPost endpointUrl (pyDumps payload) tok,
        Event.print ("JSON-RPC ERROR: " ++ pyDumps2 e ++ "\n")], Exit.code 1) := by
    simp [run, htok, hresp, hasErrorMember, hany, pySubscript, herr]
  exact ⟨h1, by rw [h1]; rfl⟩


/-- Witness for C5: the JSON-RPC error envelope of testable property P3. -/
theorem jsonrpc_error_branch_wit :
    run (some "tok") (Transport.ok (pyDumps (Json.obj [("error",
        Json.obj [("code", Json.num (-32601)), ("message", Json.str "no such method")])]))) =
      ([Event.httpPost endpointUrl (pyDumps payload) "tok",
        Event.print ("JSON-RPC ERROR: " ++
          pyDumps2 (Json.obj [("code", Json.num (-32601)),
            ("message", Json.str "no such method")]) ++ "\n")], Exit.code 1) ∧
    fileWritesOf (run (some "tok") (Transport.ok (pyDumps (Json.obj [("error",
        Json.obj [("code", Json.num (-32601)),
          ("message", Json.str "no such method")])])))).1 = [] :=
  jsonrpc_error_branch "tok" _
    [("error", Json.obj [("code", Json.num (-32601)), ("message", Json.str "no such method")])]
    (Json.obj [("code", Json.num (-32601)), ("message", Json.str "no such method")])
    (by decide) rfl rfl

/-- C9: when the parsed body is a mapping holding both an `error` and a
`result` key, the error branch wins: the script prints the JSON-RPC error,
exits with code 1, and never reaches the result or the file write. -/
theorem error_precedes_result (tok body : String) (kvs : List (String × Json))
    (e r : Json)
    (htok : tok ≠ "") (hresp : parseJson body = some (Json.obj kvs))
    (herr : jsonLookup kvs "error" = some e)
    (_hres : jsonLookup kvs "result" = some r) :
    run (some tok) (Transport.ok body) =
      ([Event.httpPost endpointUrl (pyDumps payload) tok,
        Event.print ("JSON-RPC ERROR: " ++ pyDumps2 e ++ "\n")], Exit.code 1) ∧
    fileWritesOf (run (some tok) (Transport.ok body)).1 = [] := by
  have hany := any_key_of_lookup_some kvs "error" e herr
  have h1 : run (some tok) (Transport.ok body) =
      ([Event.httpPost endpointUrl (pyDumps payload) tok,
        Event.print ("JSON-RPC ERROR: " ++ pyDumps2 e ++ "\n")], Exit.code 1) := by
    simp [run, htok, hresp, hasErrorMember, hany, pySubscript, herr]
  exact ⟨h1, by rw [h1]; rfl⟩


/-- Witness for C9: an envelope holding both `error` and `result`. -/
theorem error_precedes_result_wit :
    run (some "tok") (Transport.ok (pyDumps (Json.obj [("error", Json.str "boom"),
        ("result", Json.str "ignored")]))) =
      ([Event.httpPost endpointUrl (pyDumps payload) "tok",
        Event.print ("JSON-RPC ERROR: " ++ pyDumps2 (Json.str "boom") ++ "\n")],
       Exit.code 1) ∧
    fileWritesOf (run (some "tok") (Transport.ok (pyDumps (Json.obj [("error",
        Json.str "boom"), ("result", Json.str "ignored")])))).1 = [] :=
  error_precedes_result "tok" _
    [("error", Json.str "boom"), ("result", Json.str "ignored")]
    (Json.str "boom") (Json.str "ignored") (by decide) rfl rfl rfl

/-- C1 (amended): a double-decoded inner payload that is a mapping with an
`error` field makes the script print `ERROR:` followed by that field
pretty-printed with 2-space indent, after having written the inner payload to
the snapshot file — but the script then falls off its end, so the exit code is
0, not the 1 the claim states (the presentation `elif` at lines 47-48 contains
no `exit(1)`). -/
theorem inner_error_prints_and_exits_zero (tok body : String) (resp : Json)
    (kvs : List (String × Json)) (v : Json)
    (htok : tok ≠ "") (hresp : parseJson body = some resp)
    (houter : hasErrorMember resp = some false)
    (hinner : innerOf resp = some (Json.obj kvs))
    (herr : jsonLookup kvs "error" = some v) :
    run (some tok) (Transport.ok body) =
      ([Event.httpPost endpointUrl (pyDumps payload) tok,
        Event.fileWrite snapshotPath (pyDumps2 (Json.obj kvs)),
        Event.print ("ERROR: " ++ pyDumps2 v ++ "\n")], Exit.code 0) := by
  have hany := any_key_of_lookup_some kvs "error" v herr
  simp [run, htok, hresp, houter, hinner, hany, herr]

/-- Witness for C1: inner payload of testable property P5. -/
theorem inner_error_exit_zero_wit :
    run (some "tok")
        (Transport.ok (envBody (pyDumps (Json.obj [("error", Json.str "quota exceeded")])))) =
      ([Event.httpPost endpointUrl (pyDumps payload) "tok",
        Event.fileWrite snapshotPath (pyDumps2 (Json.obj [("error", Json.str "quota exceeded")])),
        Event.print ("ERROR: " ++ pyDumps2 (Json.str "quota exceeded") ++ "\n")],
       Exit.code 0) :=
  inner_error_prints_and_exits_zero "tok" _
    (Json.obj [("result", Json.obj [("content", Json.arr [Json.obj [("text",
      Json.str (pyDumps (Json.obj [("error", Json.str "quota exceeded")])))]])])])
    [("error", Json.str "quota exceeded")] (Json.str "quota exceeded")
    (by decide) rfl rfl rfl rfl

/-- Counterexample to C1 as stated: on the inner payload of testable property
P5 the script does write the snapshot and print `ERROR: "quota exceeded"`, but
its exit code is 0, not 1. -/
theorem inner_error_exit_one_cex :
    (parseJson (envBody (pyDumps (Json.obj [("error", Json.str "quota exceeded")])))).bind
        innerOf = some (Json.obj [("error", Json.str "quota exceeded")]) ∧
    run (some "tok")
        (Transport.ok (envBody (pyDumps (Json.obj [("error", Json.str "quota exceeded")])))) =
      ([Event.httpPost endpointUrl (pyDumps payload) "tok",
        Event.fileWrite snapshotPath "\x7b\n  \"error\": \"quota exceeded\"\n\x7d",
        Event.print "ERROR: \"quota exceeded\"\n"], Exit.code 0) ∧
    Exit.code 0 ≠ Exit.code 1 :=
  ⟨rfl, rfl, by decide⟩

/-- C8: an inner payload that is neither a list nor a mapping with an `error`
field is pretty-printed whole (2-space indent), truncated to its first 2000
characters, and the script exits with code 0. -/
theorem fallback_dump_branch (tok body : String) (resp inner : Json)
    (htok : tok ≠ "") (hresp : parseJson body = some resp)
    (houter : hasErrorMember resp = some false)
    (hinner : innerOf resp = some inner)
    (hnotlist : ∀ xs, inner ≠ Json.arr xs)
    (hnoerr : ∀ kvs, inner = Json.obj kvs → jsonLookup kvs "error" = none) :
    run (some tok) (Transport.ok body) =
      ([Event.httpPost endpointUrl (pyDumps payload) tok,
        Event.fileWrite snapshotPath (pyDumps2 inner),
        Event.print (pyTake (pyDumps2 inner) 2000 ++ "\n")], Exit.code 0) := by
  cases inner with
  | arr xs => exact absurd rfl (hnotlist xs)
  | obj kvs =>
      have hany := any_key_of_lookup_none kvs "error" (hnoerr kvs rfl)
      simp [run, htok, hresp, houter, hinner, hany]
  | null => simp [run, htok, hresp, houter, hinner]
  | bool b => simp [run, htok, hresp, houter, hinner]
  | num n => simp [run, htok, hresp, houter, hinner]
  | str s => simp [run, htok, hresp, houter, hinner]

/-- Witness for C8: inner payload of testable property P6. -/
theorem fallback_dump_branch_wit :
    run (some "tok") (Transport.ok (envBody (pyDumps (Json.obj [("foo", Json.str "bar")])))) =
      ([Event.httpPost endpointUrl (pyDumps payload) "tok",
        Event.fileWrite snapshotPath (pyDumps2 (Json.obj [("foo", Json.str "bar")])),
        Event.print (pyTake (pyDumps2 (Json.obj [("foo", Json.str "bar")])) 2000 ++ "\n")],
       Exit.code 0) :=
  fallback_dump_branch "tok" _
    (Json.obj [("result", Json.obj [("content", Json.arr [Json.obj [("text",
      Json.str (pyDumps (Json.obj [("foo", Json.str "bar")])))]])])])
    (Json.obj [("foo", Json.str "bar")])
    (by decide) rfl rfl rfl
    (fun xs h => Json.noConfusion h)
    (fun kvs h => by cases h; rfl)

/-- C3: every run that reaches persistence writes exactly one file: the double
decode of `result.content[0].text` (`innerOf`), pretty-printed with 2-space
indent, to the fixed snapshot path — and this write precedes every presentation
print (the only event before it is the network call itself). -/
theorem snapshot_written_before_output (tok body : String) (resp inner : Json)
    (htok : tok ≠ "") (hresp : parseJson body = some resp)
    (houter : hasErrorMember resp = some false)
    (hinner : innerOf resp = some inner) :
    ∃ rest, (run (some tok) (Transport.ok body)).1 =
        Event.httpPost endpointUrl (pyDumps payload) tok ::
          Event.fileWrite snapshotPath (pyDumps2 inner) :: rest ∧
      (∀ e ∈ rest, ∃ s, e = Event.print s) ∧
      fileWritesOf (run (some tok) (Transport.ok body)).1 =
        [(snapshotPath, pyDumps2 inner)] := by
  cases inner with
  | arr xs =>
      obtain ⟨rows, ok, hr⟩ : ∃ rows ok, renderRows xs = (rows, ok) := ⟨_, _, rfl⟩
      have htr : run (some tok) (Transport.ok body) =
          (Event.httpPost endpointUrl (pyDumps payload) tok ::
            Event.fileWrite snapshotPath (pyDumps2 (Json.arr xs)) ::
            Event.print ("Total flows: " ++ toString xs.length ++ "\n\n") ::
            rows.map Event.print,
           if ok then Exit.code 0 else Exit.crash) := by
        simp [run, htok, hresp, houter, hinner, hr]
      refine ⟨Event.print ("Total flows: " ++ toString xs.length ++ "\n\n") ::
        rows.map Event.print, by rw [htr], ?_, ?_⟩
      · intro e he
        rcases List.mem_cons.mp he with h | h
        · exact ⟨_, h⟩
        · obtain ⟨s, _, hs⟩ := List.mem_map.mp h
          exact ⟨s, hs.symm⟩
      · rw [htr]
        show (snapshotPath, pyDumps2 (Json.arr xs)) ::
          fileWritesOf (rows.map Event.print) = _
        rw [fileWritesOf_map_print]
  | obj kvs =>
      cases hany : kvs.any (fun kv => kv.1 == "error") with
      | true =>
          obtain ⟨v, hv⟩ := lookup_some_of_any_key kvs "error" hany
          have htr : run (some tok) (Transport.ok body) =
              ([Event.httpPost endpointUrl (pyDumps payload) tok,
                Event.fileWrite snapshotPath (pyDumps2 (Json.obj kvs)),
                Event.print ("ERROR: " ++ pyDumps2 v ++ "\n")], Exit.code 0) := by
            simp [run, htok, hresp, houter, hinner, hany, hv]
          refine ⟨[Event.print ("ERROR: " ++ pyDumps2 v ++ "\n")], by rw [htr], ?_,
            by rw [htr]; rfl⟩
          intro e he
          rcases List.mem_singleton.mp he with h
          exact ⟨_, h⟩
      | false =>
          have htr : run (some tok) (Transport.ok body) =
              ([Event.httpPost endpointUrl (pyDumps payload) tok,
                Event.fileWrite snapshotPath (pyDumps2 (Json.obj kvs)),
                Event.print (pyTake (pyDumps2 (Json.obj kvs)) 2000 ++ "\n")],
               Exit.code 0) := by
            simp [run, htok, hresp, houter, hinner, hany]
          refine ⟨[Event.print (pyTake (pyDumps2 (Json.obj kvs)) 2000 ++ "\n")],
            by rw [htr], ?_, by rw [htr]; rfl⟩
          intro e he
          rcases List.mem_singleton.mp he with h
          exact ⟨_, h⟩
  | null =>
      have htr : run (some tok) (Transport.ok body) =
          ([Event.httpPost endpointUrl (pyDumps payload) tok,
            Event.fileWrite snapshotPath (pyDumps2 Json.null),
            Event.print (pyTake (pyDumps2 Json.null) 2000 ++ "\n")], Exit.code 0) := by
        simp [run, htok, hresp, houter, hinner]
      refine ⟨[Event.print (pyTake (pyDumps2 Json.null) 2000 ++ "\n")],
        by rw [htr], ?_, by rw [htr]; rfl⟩
      intro e he
      rcases List.mem_singleton.mp he with h
      exact ⟨_, h⟩
  | bool b =>
      have htr : run (some tok) (Transport.ok body) =
          ([Event.httpPost endpointUrl (pyDumps payload) tok,
            Event.fileWrite snapshotPath (pyDumps2 (Json.bool b)),
            Event.print (pyTake (pyDumps2 (Json.bool b)) 2000 ++ "\n")], Exit.code 0) := by
        simp [run, htok, hresp, houter, hinner]
      refine ⟨[Event.print (pyTake (pyDumps2 (Json.bool b)) 2000 ++ "\n")],
        by rw [htr], ?_, by rw [htr]; rfl⟩
      intro e he
      rcases List.mem_singleton.mp he with h
      exact ⟨_, h⟩
  | num n =>
      have htr : run (some tok) (Transport.ok body) =
          ([Event.httpPost endpointUrl (pyDumps payload) tok,
            Event.fileWrite snapshotPath (pyDumps2 (Json.num n)),
            Event.print (pyTake (pyDumps2 (Json.num n)) 2000 ++ "\n")], Exit.code 0) := by
        simp [run, htok, hresp, houter, hinner]
      refine ⟨[Event.print (pyTake (pyDumps2 (Json.num n)) 2000 ++ "\n")],
        by rw [htr], ?_, by rw [htr]; rfl⟩
      intro e he
      rcases List.mem_singleton.mp he with h
      exact ⟨_, h⟩
  | str s =>
      have htr : run (some tok) (Transport.ok body) =
          ([Event.httpPost endpointUrl (pyDumps payload) tok,
            Event.fileWrite snapshotPath (pyDumps2 (Json.str s)),
            Event.print (pyTake (pyDumps2 (Json.str s)) 2000 ++ "\n")], Exit.code 0) := by
        simp [run, htok, hresp, houter, hinner]
      refine ⟨[Event.print (pyTake (pyDumps2 (Json.str s)) 2000 ++ "\n")],
        by rw [htr], ?_, by rw [htr]; rfl⟩
      intro e he
      rcases List.mem_singleton.mp he with h
      exact ⟨_, h⟩

/-- Witness for C3: the P4 list payload; the file write carries the
pretty-printed list and precedes the presentation prints. -/
theorem snapshot_written_before_output_wit :
    ∃ rest, (run (some "tok") (Transport.ok (envBody (pyDumps (Json.arr [flowP4]))))).1 =
        Event.httpPost endpointUrl (pyDumps payload) "tok" ::
          Event.fileWrite snapshotPath (pyDumps2 (Json.arr [flowP4])) :: rest ∧
      (∀ e ∈ rest, ∃ s, e = Event.print s) ∧
      fileWritesOf (run (some "tok") (Transport.ok (envBody (pyDumps (Json.arr [flowP4]))))).1 =
        [(snapshotPath, pyDumps2 (Json.arr [flowP4]))] :=
  snapshot_written_before_output "tok" _
    (Json.obj [("result", Json.obj [("content", Json.arr [Json.obj [("text",
      Json.str (pyDumps (Json.arr [flowP4])))]])])])
    (Json.arr [flowP4]) (by decide) rfl rfl rfl

/-- With a non-empty credential, the file writes of a run are exactly
`snapshotWritesFor` of the transport outcome: they do not depend on the
credential. -/
theorem fileWrites_eq_snapshotWritesFor (t : String) (h : t ≠ "") (tr : Transport) :
    fileWritesOf (run (some t) tr).1 = snapshotWritesFor tr := by
  cases tr with
  | httpError status body =>
      have e : run (some t) (Transport.httpError status body) =
          ([Event.httpPost endpointUrl (pyDumps payload) t,
            Event.print ("HTTP " ++ toString status ++ ": " ++ pyTake body 300 ++ "\n")],
           Exit.code 1) := by
        show (if t = "" then ([Event.print "NO TOKEN SET\n"], Exit.code 1)
          else ([Event.httpPost endpointUrl (pyDumps payload) t,
            Event.print ("HTTP " ++ toString status ++ ": " ++ pyTake body 300 ++ "\n")],
            Exit.code 1)) = _
        rw [if_neg h]
      rw [e]
      rfl
  | ok body =>
    cases hp : parseJson body with
    | none => simp [run, h, hp, snapshotWritesFor, fileWritesOf]
    | some resp =>
      cases he : hasErrorMember resp with
      | none => simp [run, h, hp, he, snapshotWritesFor, fileWritesOf]
      | some b =>
        cases b with
        | true =>
          cases hs : pySubscript resp "error" with
          | none => simp [run, h, hp, he, hs, snapshotWritesFor, fileWritesOf]
          | some v => simp [run, h, hp, he, hs, snapshotWritesFor, fileWritesOf]
        | false =>
          cases hi : innerOf resp with
          | none => simp [run, h, hp, he, hi, snapshotWritesFor, fileWritesOf]
          | some inner =>
            cases inner with
            | arr xs =>
                obtain ⟨rows, ok, hr⟩ : ∃ rows ok, renderRows xs = (rows, ok) := ⟨_, _, rfl⟩
                have htr : run (some t) (Transport.ok body) =
                    (Event.httpPost endpointUrl (pyDumps payload) t ::
                      Event.fileWrite snapshotPath (pyDumps2 (Json.arr xs)) ::
                      Event.print ("Total flows: " ++ toString xs.length ++ "\n\n") ::
                      rows.map Event.print,
                     if ok then Exit.code 0 else Exit.crash) := by
                  simp [run, h, hp, he, hi, hr]
                rw [htr]
                show (snapshotPath, pyDumps2 (Json.arr xs)) ::
                  fileWritesOf (rows.map Event.print) = _
                rw [fileWritesOf_map_print]
                simp [snapshotWritesFor, hp, he, hi]
            | obj kvs =>
                cases hany : kvs.any (fun kv => kv.1 == "error") with
                | true =>
                    cases hl : jsonLookup kvs "error" with
                    | none =>
                        have htr : run (some t) (Transport.ok body) =
                            ([Event.httpPost endpointUrl (pyDumps payload) t,
                              Event.fileWrite snapshotPath (pyDumps2 (Json.obj kvs))],
                             Exit.crash) := by
                          simp [run, h, hp, he, hi, hany, hl]
                        rw [htr]
                        simp [snapshotWritesFor, hp, he, hi, fileWritesOf]
                    | some v =>
                        have htr : run (some t) (Transport.ok body) =
                            ([Event.httpPost endpointUrl (pyDumps payload) t,
                              Event.fileWrite snapshotPath (pyDumps2 (Json.obj kvs)),
                              Event.print ("ERROR: " ++ pyDumps2 v ++ "\n")],
                             Exit.code 0) := by
                          simp [run, h, hp, he, hi, hany, hl]
                        rw [htr]
                        simp [snapshotWritesFor, hp, he, hi, fileWritesOf]
                | false =>
                    have htr : run (some t) (Transport.ok body) =
                        ([Event.httpPost endpointUrl (pyDumps payload) t,
                          Event.fileWrite snapshotPath (pyDumps2 (Json.obj kvs)),
                          Event.print (pyTake (pyDumps2 (Json.obj kvs)) 2000 ++ "\n")],
                         Exit.code 0) := by
                      simp [run, h, hp, he, hi, hany]
                    rw [htr]
                    simp [snapshotWritesFor, hp, he, hi, fileWritesOf]
            | null => simp [run, h, hp, he, hi, snapshotWritesFor, fileWritesOf]
            | bool c => simp [run, h, hp, he, hi, snapshotWritesFor, fileWritesOf]
            | num n => simp [run, h, hp, he, hi, snapshotWritesFor, fileWritesOf]
            | str s => simp [run, h, hp, he, hi, snapshotWritesFor, fileWritesOf]

/-- C7: two runs given identical server responses persist byte-identical
snapshot content — the write is a function of the response alone, whatever the
(non-empty) credentials of the two runs were. -/
theorem snapshot_deterministic (t1 t2 : String) (tr : Transport)
    (h1 : t1 ≠ "") (h2 : t2 ≠ "") :
    fileWritesOf (run (some t1) tr).1 = fileWritesOf (run (some t2) tr).1 := by
  rw [fileWrites_eq_snapshotWritesFor t1 h1 tr, fileWrites_eq_snapshotWritesFor t2 h2 tr]

/-- Witness for C7: two different credentials, the P4 response. -/
theorem snapshot_deterministic_wit :
    fileWritesOf (run (some "alice") (Transport.ok (envBody (pyDumps (Json.arr [flowP4]))))).1 =
    fileWritesOf (run (some "bob") (Transport.ok (envBody (pyDumps (Json.arr [flowP4]))))).1 :=
  snapshot_deterministic "alice" "bob" (Transport.ok (envBody (pyDumps (Json.arr [flowP4]))))
    (by decide) (by decide)

/-- Counterexample to C2 as stated: on the P4 flow the state `active` is not
left-padded to 10 characters anywhere in the output — the script left-justifies
(pads on the right, `:<10`); the full output of the run is shown verbatim. -/
theorem list_branch_left_pad_cex :
    strContains (stdoutOf (run (some "tok")
        (Transport.ok (envBody (pyDumps (Json.arr [flowP4]))))).1)
      (lpadSpec "active" 10) = false ∧
    strContains (stdoutOf (run (some "tok")
        (Transport.ok (envBody (pyDumps (Json.arr [flowP4]))))).1)
      (ljust "active" 10) = true ∧
    stdoutOf (run (some "tok") (Transport.ok (envBody (pyDumps (Json.arr [flowP4]))))).1 =
      "Total flows: 1\n\n  abcdefghijkl..  | active     | schedule        | Daily Sync\n" :=
  ⟨rfl, rfl, rfl⟩

/-- C2 (amended): an inner payload that is a list prints `Total flows: <count>`
followed by a blank line and one row per element in order, and the run exits
with code 0; each row shows the id truncated to its first 12 characters, the
state and the trigger type left-justified — padded on the right to 10 and 15
characters, not on the left as the claim states — and the display name, with
`?` for any missing field. Stated for payloads whose elements fit the Flow
data model (string or absent fields). -/
theorem list_branch_output (tok body : String) (resp : Json) (xs : List Json)
    (htok : tok ≠ "") (hresp : parseJson body = some resp)
    (houter : hasErrorMember resp = some false)
    (hinner : innerOf resp = some (Json.arr xs))
    (hwf : ∀ fl ∈ xs, (rowOf fl).isSome = true) :
    run (some tok) (Transport.ok body) =
      (Event.httpPost endpointUrl (pyDumps payload) tok ::
        Event.fileWrite snapshotPath (pyDumps2 (Json.arr xs)) ::
        Event.print ("Total flows: " ++ toString xs.length ++ "\n\n") ::
        (xs.map (fun fl => (rowOf fl).getD "")).map Event.print,
       Exit.code 0) ∧
    ∀ fl i n st tg, fl ∈ xs →
      flowField fl "id" = some i → flowField fl "displayName" = some n →
      flowField fl "state" = some st → flowField fl "triggerType" = some tg →
      rowOf fl = some ("  " ++ pyTake i 12 ++ "..  | " ++
        (st ++ spaces (10 - st.length)) ++ " | " ++
        (tg ++ spaces (15 - tg.length)) ++ " | " ++ n ++ "\n") := by
  constructor
  · simp [run, htok, hresp, houter, hinner, renderRows_of_all_some xs hwf]
  · intro fl i n st tg _hmem hi hn hs ht
    simp [rowOf, hi, hn, hs, ht, ljust]

/-- Witness for C2: the P4 payload with a single flow. -/
theorem list_branch_output_wit :
    run (some "tok") (Transport.ok (envBody (pyDumps (Json.arr [flowP4])))) =
      (Event.httpPost endpointUrl (pyDumps payload) "tok" ::
        Event.fileWrite snapshotPath (pyDumps2 (Json.arr [flowP4])) ::
        Event.print ("Total flows: " ++ toString [flowP4].length ++ "\n\n") ::
        ([flowP4].map (fun fl => (rowOf fl).getD "")).map Event.print,
       Exit.code 0) ∧
    ∀ fl i n st tg, fl ∈ [flowP4] →
      flowField fl "id" = some i → flowField fl "displayName" = some n →
      flowField fl "state" = some st → flowField fl "triggerType" = some tg →
      rowOf fl = some ("  " ++ pyTake i 12 ++ "..  | " ++
        (st ++ spaces (10 - st.length)) ++ " | " ++
        (tg ++ spaces (15 - tg.length)) ++ " | " ++ n ++ "\n") :=
  list_branch_output "tok" _
    (Json.obj [("result", Json.obj [("content", Json.arr [Json.obj [("text",
      Json.str (pyDumps (Json.arr [flowP4])))]])])])
    [flowP4] (by decide) rfl rfl rfl
    (by intro fl hfl; rcases List.mem_singleton.mp hfl with rfl; rfl)

/-- C10: the `..` suffix after the id is appended unconditionally — for a flow
record whose id has at most 12 characters (so no truncation happens), and in
particular for a missing id (which renders as `?`), the row still reads
`<id>..`. -/
theorem row_suffix_unconditional (kvs : List (String × Json)) (i n st tg : String)
    (hi : flowField (Json.obj kvs) "id" = some i) (hlen : i.length ≤ 12)
    (hn : flowField (Json.obj kvs) "displayName" = some n)
    (hs : flowField (Json.obj kvs) "state" = some st)
    (ht : flowField (Json.obj kvs) "triggerType" = some tg) :
    rowOf (Json.obj kvs) =
      some ("  " ++ i ++ "..  | " ++ ljust st 10 ++ " | " ++ ljust tg 15 ++
        " | " ++ n ++ "\n") ∧
    (jsonLookup kvs "id" = none → i = "?") := by
  constructor
  · have htake : pyTake i 12 = i := by
      unfold pyTake
      rw [List.take_of_length_le hlen]
    simp [rowOf, hi, hn, hs, ht, htake]
  · intro hnone
    have h2 : flowField (Json.obj kvs) "id" = some "?" := by simp [flowField, hnone]
    rw [h2] at hi
    exact (Option.some.inj hi).symm

/-- Witness for C10: a flow with no id at all still renders `  ?..`. -/
theorem row_suffix_unconditional_wit :
    rowOf (Json.obj [("state", Json.str "active")]) =
      some ("  ?..  | " ++ ljust "active" 10 ++ " | " ++ ljust "?" 15 ++ " | ?\n") ∧
    (jsonLookup [("state", Json.str "active")] "id" = none → "?" = "?") :=
  row_suffix_unconditional [("state", Json.str "active")] "?" "?" "active" "?"
    rfl (by decide) rfl rfl rfl

end ListFlows
